import Mathlib

/-!
Verification development for the peridynamics time-integration engine
(`peridynamics/integrators.py`, `Peridynamics/parallelFunctions.py`,
`peridynamics/test/test_regression.py`).

Floating-point values are embedded as rationals; numpy arrays of shape
(nnodes, 3) are embedded as lists of triples of rationals.  Device-resident
buffers are embedded as fields of explicit host-state structures; an OpenCL
kernel dispatch is embedded as a pure state update.  Kernel source files
(`peridynamics/kernels/*.cl`) are not part of the sources under
verification, so kernel bodies are either parameters of the embedding or
are modelled from the specification (marked in their doc comments).
-/

/-- A row of a numpy array of shape (nnodes, 3): one 3-vector per node. -/
abbrev Vec3 : Type := ℚ × ℚ × ℚ

/-- Elementwise addition of two 3-vectors (numpy `+` on one row). -/
def v3add (a b : Vec3) : Vec3 := (a.1 + b.1, a.2.1 + b.2.1, a.2.2 + b.2.2)

/-- Scalar times 3-vector, scalar on the left (numpy `c * a` on one row). -/
def v3smulL (c : ℚ) (a : Vec3) : Vec3 := (c * a.1, c * a.2.1, c * a.2.2)

/-- 3-vector times scalar, scalar on the right (numpy `a * c` on one row). -/
def v3smulR (a : Vec3) (c : ℚ) : Vec3 := (a.1 * c, a.2.1 * c, a.2.2 * c)

/-- The zero 3-vector. -/
def v3zero : Vec3 := (0, 0, 0)

/-- `Euler.__call__(self, u, f)` from `peridynamics/integrators.py`
(lines 53-67): `return u + self.dt * f * self.dampening`, evaluated with
numpy semantics as `u + ((dt * f) * dampening)` elementwise over the
(nnodes, 3) arrays `u` and `f`.  The constructor stores `dt` and
`dampening` (the latter defaulting to 1.0). -/
def eulerCall (dt dampening : ℚ) (u f : List Vec3) : List Vec3 :=
  List.zipWith (fun ui fi => v3add ui (v3smulR (v3smulL dt fi) dampening)) u f

/-- One node row of the boundary-condition assignments performed after the
Euler update in the `regression` fixture of
`peridynamics/test/test_regression.py` (lines 67-72), in source order:
`u[lhs, 1:3] = 0`, `u[rhs, 1:3] = 0`, `u[lhs, 0] = -0.5 * t * load_rate`,
`u[rhs, 0] = 0.5 * t * load_rate`.  `isLhs`/`isRhs` say whether this node
index is in `model.lhs`/`model.rhs`. -/
def bcRow (isLhs isRhs : Bool) (t : ℕ) (loadRate : ℚ) (row : Vec3) : Vec3 :=
  let r1 := if isLhs then (row.1, (0 : ℚ), (0 : ℚ)) else row
  let r2 := if isRhs then (r1.1, (0 : ℚ), (0 : ℚ)) else r1
  let r3 := if isLhs then (-(1/2 : ℚ) * t * loadRate, r2.2.1, r2.2.2) else r2
  let r4 := if isRhs then ((1/2 : ℚ) * t * loadRate, r3.2.1, r3.2.2) else r3
  r4

/-- Row-indexed application of `bcRow` to the displacement array, the index
starting at `i0` (the vectorised numpy row assignments of the regression
fixture, applied node by node). -/
def applyRegressionBCsAux (lhs rhs : ℕ → Bool) (t : ℕ) (loadRate : ℚ) :
    ℕ → List Vec3 → List Vec3
  | _, [] => []
  | i, row :: rest =>
      bcRow (lhs i) (rhs i) t loadRate row ::
        applyRegressionBCsAux lhs rhs t loadRate (i + 1) rest

/-- The boundary-condition assignments of the regression fixture over the
whole displacement array, node indices from 0. -/
def applyRegressionBCs (lhs rhs : ℕ → Bool) (t : ℕ) (loadRate : ℚ)
    (u : List Vec3) : List Vec3 :=
  applyRegressionBCsAux lhs rhs t loadRate 0 u

/-- One iteration of the loop body of the `regression` fixture
(`test_regression.py` lines 58-72): the Euler update
`u = integrator(u, f)` with `Euler(dt=1e-3)` (dampening left at its
default 1.0), followed by the boundary-condition assignments.  The force
array `f` produced by `model.bond_force()` is a parameter. -/
def regressionStep (lhs rhs : ℕ → Bool) (dt loadRate : ℚ) (t : ℕ)
    (u f : List Vec3) : List Vec3 :=
  applyRegressionBCs lhs rhs t loadRate (eulerCall dt 1 u f)

/-- A Python scalar that is either a number or `None`, as returned for the
tip diagnostics by the `write` methods of the integrators. -/
inductive PyScalar : Type where
  | noneVal : PyScalar
  | num : ℚ → PyScalar
deriving DecidableEq

/-- The accumulation loop of every `write` method (for example
`EulerOpenCL.write`, `peridynamics/integrators.py` lines 683-690, and
`EulerCromer.write`, lines 273-280): iterate over the nodes; for each node
whose tip flag equals 1, add the third displacement component to
`tip_displacement`, the third force/acceleration component to
`tip_shear_force`, and 1 to `tmp`.  `accD`, `accF`, `accC` are the running
values of `tip_displacement`, `tip_shear_force`, `tmp`. -/
def tipLoop : ℚ → ℚ → ℕ → List ℤ → List Vec3 → List Vec3 → ℚ × ℚ × ℕ
  | accD, accF, accC, ty :: tys, u :: us, f :: fs =>
      if ty = 1 then
        tipLoop (accD + u.2.2) (accF + f.2.2) (accC + 1) tys us fs
      else
        tipLoop accD accF accC tys us fs
  | accD, accF, accC, _, _, _ => (accD, accF, accC)

/-- The tip diagnostics returned by every `write` method: after the
accumulation loop, `tip_displacement` is divided by `tmp` when `tmp != 0`
and set to `None` otherwise; `tip_shear_force` is returned as accumulated.
`tips` is `h_tip_types`, `un` the displacement array and `udn` the
force/acceleration array whose third components are accumulated. -/
def writeTipDiagnostics (tips : List ℤ) (un udn : List Vec3) :
    PyScalar × PyScalar :=
  let r := tipLoop 0 0 0 tips un udn
  (if r.2.2 ≠ 0 then PyScalar.num (r.1 / (r.2.2 : ℚ)) else PyScalar.noneVal,
   PyScalar.num r.2.1)

/-- Number of nodes whose tip flag equals 1 (a definition following the
wording of the specification, for comparison with `writeTipDiagnostics`). -/
def specTipCount (tips : List ℤ) : ℕ := tips.countP (fun t => t = 1)

/-- Sum of the third components of `xs` over the nodes whose tip flag
equals 1 (specification-side definition). -/
def specTipSumThird : List ℤ → List Vec3 → ℚ
  | ty :: tys, x :: xs =>
      (if ty = 1 then x.2.2 else 0) + specTipSumThird tys xs
  | _, _ => 0

/-- Arithmetic mean of the third components over the tip-flagged nodes
(specification-side definition: the claimed value of both diagnostics). -/
def specTipMeanThird (tips : List ℤ) (xs : List Vec3) : ℚ :=
  specTipSumThird tips xs / (specTipCount tips : ℚ)

/-- `adapt_time_step` shared verbatim by `DormandPrince` (lines 1884-1902),
`DormandPrinceOptimised` (2209-2227), `HeunEuler` (2672-2690) and
`HeunEulerOptimised` (2929-2947) in `peridynamics/integrators.py`:
`adapt = 0`; `if error > self.error_size_max: self.h_dt /= 1.1; adapt = 1`;
`elif error < self.error_size_min: self.h_dt *= 1.1`; `return adapt`.
`error` is the host value `np.mean(np.linalg.norm(h_errorn, axis=1))`
computed from the device error buffer; it enters here as a parameter.
Returns the adapt flag and the new `h_dt`. -/
def adaptTimeStep (errorSizeMax errorSizeMin error dt : ℚ) : Bool × ℚ :=
  if error > errorSizeMax then (true, dt / (11/10))
  else if error < errorSizeMin then (false, dt * (11/10))
  else (false, dt)

/-- Modelled from the spec: the `CheckBonds` kernel
(`peridynamics/kernels/*.cl`, kernel source not under `src/`).  The spec
says the failure rule marks a bond broken when its stretch exceeds the
critical stretch, that already-broken bonds stay broken, and that
deactivation is idempotent and never reversed.  `brkJ j` abstracts the
critical-stretch test of the bond in slot `j` of this node; a flag is the
bond's is-active bit.  Slot indices start at `j0`. -/
def checkBondsRowAux (brkJ : ℕ → Bool) : ℕ → List Bool → List Bool
  | _, [] => []
  | j, b :: rest => (b && !(brkJ j)) :: checkBondsRowAux brkJ (j + 1) rest

/-- Modelled from the spec: node-indexed part of the `CheckBonds` kernel;
`brk i j` abstracts the critical-stretch test of bond `(i, j)`.  Node
indices start at `i0`. -/
def checkBondsAux (brk : ℕ → ℕ → Bool) : ℕ → List (List Bool) → List (List Bool)
  | _, [] => []
  | i, row :: rest =>
      checkBondsRowAux (brk i) 0 row :: checkBondsAux brk (i + 1) rest

/-- Modelled from the spec: one dispatch of the bond-failure check over the
whole adjacency store (active-flag arrays, one per node). -/
def checkBondsKernel (brk : ℕ → ℕ → Bool) (bonds : List (List Bool)) :
    List (List Bool) :=
  checkBondsAux brk 0 bonds

/-- The active flag of the bond in slot `j` of node `i`; out-of-range
bonds read as inactive. -/
def bondActive (bonds : List (List Bool)) (i j : ℕ) : Bool :=
  (bonds.getD i []).getD j false

/-- Host-visible state of an adaptive integrator (`DormandPrince`,
`DormandPrinceOptimised`, `HeunEuler`, `HeunEulerOptimised`): the committed
displacement buffer (`d_un5` for Dormand-Prince, `d_un2` for Heun-Euler),
the bond active flags (`d_horizons`) and the current step size `h_dt`. -/
structure AdaptiveState : Type where
  un : List Vec3
  bonds : List (List Bool)
  dt : ℚ
deriving DecidableEq

/-- The accept/reject skeleton shared verbatim by `DormandPrince.runtime`
(lines 1847-1857), `DormandPrinceOptimised.runtime` (2172-2182),
`HeunEuler.runtime` (2635-2646) and `HeunEulerOptimised.runtime`
(2892-2903) of `peridynamics/integrators.py`: after the stage force
evaluations, `if self.adapt_time_step(model) == 1: pass` (the step is
rejected: neither the displacement-update kernel nor the bond-check kernel
is dispatched), `else` the full displacement update and the bond-failure
check are dispatched.  `error` is the mean error norm produced by the
stage computation; `commitU` abstracts the `UpdateDisplacement` kernel
(which receives the committed buffer and the current `h_dt`); `brk`
abstracts the critical-stretch test of the `CheckBonds` kernel at the
committed displacement.  The stage evaluations themselves write only the
intermediate stage buffers (`d_un_temp`, `d_k*dn`), which are not part of
this committed state. -/
def adaptiveRuntime (errorSizeMax errorSizeMin error : ℚ)
    (commitU : List Vec3 → ℚ → List Vec3) (brk : ℕ → ℕ → Bool)
    (s : AdaptiveState) : AdaptiveState :=
  let r := adaptTimeStep errorSizeMax errorSizeMin error s.dt
  if r.1 then { s with dt := r.2 }
  else
    { un := commitU s.un r.2,
      bonds := checkBondsKernel brk s.bonds,
      dt := r.2 }

/-- Fraction of active bonds turned into a damage value for one node,
modelled from the spec formula
`damage(node) = 1 - active_bond_count / initial_bond_count` implemented by
the `CalculateDamage` / `ReduceDamage` kernels (kernel source not under
`src/`); `initLen` is the node's initial bond count (`horizons_lengths`). -/
def damageOfRow (row : List Bool) (initLen : ℕ) : ℚ :=
  1 - ((row.count true : ℚ) / (initLen : ℚ))

/-- Damage vector over all nodes, from the bond active flags and the
initial bond counts. -/
def computeDamage (bonds : List (List Bool)) (lens : List ℕ) : List ℚ :=
  List.zipWith damageOfRow bonds lens

/-- Host-visible state of `EulerStochastic` (and, dropping the noise
fields, of the other OpenCL integrators): `h_horizons` is the host copy of
the adjacency active flags made at `__init__` (never written again by any
method), `d_horizons` the device buffer the kernels mutate, `d_un`/`d_udn`
the displacement and force buffers, `d_damage` the damage buffer, `d_pn`
the precomputed noise increments and `force_load_scale` the host scalar
`h_force_load_scale`. -/
structure StochasticState : Type where
  h_horizons : List (List Bool)
  d_horizons : List (List Bool)
  d_un : List Vec3
  d_udn : List Vec3
  d_damage : List ℚ
  d_pn : List (List Vec3)
  force_load_scale : ℚ
deriving DecidableEq

/-- `EulerStochastic.reset(self, model, steps)` from
`peridynamics/integrators.py` lines 2388-2424: `h_un`, `h_udn` and
`h_damage` are replaced by zero arrays, `h_pn` by a fresh noise sample
(`noise(model.C, model.K, model.nnodes, steps)`, an external collaborator,
entering here as the parameter `pn`), and the device buffers `d_un`,
`d_udn`, `d_damage`, `d_pn` and `d_horizons` are re-created with
`COPY_HOST_PTR` from the host arrays.  In particular `d_horizons` is
re-created from `self.h_horizons`, the initial adjacency copied at
`__init__`. -/
def stochasticReset (s : StochasticState) (nnodes : ℕ)
    (pn : List (List Vec3)) : StochasticState :=
  { s with
    d_un := List.replicate nnodes v3zero,
    d_udn := List.replicate nnodes v3zero,
    d_damage := List.replicate nnodes 0,
    d_pn := pn,
    d_horizons := s.h_horizons }

/-- One core operation other than `reset`, as dispatched by the host code
of the OpenCL integrators (`EulerOpenCL.runtime` lines 659-672,
`EulerStochastic.runtime` lines 2425-2437, the `write` methods, and
`incrementLoad`).  A `step` dispatches the displacement-update and
force kernels (abstracted by `updU`, `updV`, since the kernel sources are
not under `src/`) and the bond-failure check, whose critical-stretch test
is abstracted by `brk`; `writeOp` recomputes the damage buffer from the
bond flags (with initial bond counts `lens`) and only reads everything
else; `load` is `incrementLoad(model, load_scale)` with
`model.num_force_bc_nodes` passed as `numForceBC`. -/
inductive CoreOp : Type where
  | step : (List Vec3 → List Vec3) → (List Vec3 → List Vec3) →
      (ℕ → ℕ → Bool) → CoreOp
  | writeOp : List ℕ → CoreOp
  | load : ℕ → ℚ → CoreOp

/-- Effect of one core operation on the host-visible state.  Only the
`CheckBonds` dispatch of a `step` writes the bond flags (modelled from the
spec as the monotone `checkBondsKernel`); `writeOp` writes the damage
buffer; `load` writes the force-load scale when there are force-boundary
nodes. -/
def applyCoreOp : CoreOp → StochasticState → StochasticState
  | .step updU updV brk, s =>
      { s with
        d_un := updU s.d_un,
        d_udn := updV s.d_udn,
        d_horizons := checkBondsKernel brk s.d_horizons }
  | .writeOp lens, s =>
      { s with d_damage := computeDamage s.d_horizons lens }
  | .load numForceBC scale, s =>
      if numForceBC ≠ 0 then { s with force_load_scale := scale } else s

/-- A run segment: the core operations applied in order. -/
def runCoreOps : List CoreOp → StochasticState → StochasticState
  | [], s => s
  | op :: ops, s => runCoreOps ops (applyCoreOp op s)

/-- Host-visible state of `EulerOpenCL` (`peridynamics/integrators.py`
lines 510-703): displacement buffer `d_un`, force buffer `d_udn1`, bond
active flags `d_horizons`, damage buffer `d_damage` and the host scalar
`h_force_load_scale`. -/
structure EulerOpenCLState : Type where
  un : List Vec3
  udn1 : List Vec3
  horizons : List (List Bool)
  damage : List ℚ
  force_load_scale : ℚ
deriving DecidableEq

/-- `incrementLoad(self, model, load_scale)` as written identically in
`EulerOpenCL` (lines 700-703), `EulerCromer` (290-293) and the other
integrators: `if model.num_force_bc_nodes != 0:
self.h_force_load_scale = np.float64(load_scale)`. -/
def incrementLoad (numForceBCNodes : ℕ) (loadScale : ℚ)
    (s : EulerOpenCLState) : EulerOpenCLState :=
  if numForceBCNodes ≠ 0 then { s with force_load_scale := loadScale } else s

/-- Host-visible state of `EulerCromer` (`peridynamics/integrators.py`
lines 69-293): displacement, velocity and acceleration buffers, bond
active flags and the force-load scale. -/
structure EulerCromerState : Type where
  un : List Vec3
  udn : List Vec3
  uddn : List Vec3
  horizons : List (List Bool)
  force_load_scale : ℚ
deriving DecidableEq

/-- `EulerCromer.__call__(self)` from `peridynamics/integrators.py` lines
219-232: the method body consists only of the docstring, so the call
performs no kernel dispatch, changes no state and returns Python `None`
instead of the updated displacements promised by its docstring and by the
`Integrator` base-class contract (lines 11-25).  The same holds for
`EulerOpenCL.__call__` (644-657) and every other OpenCL integrator. -/
def eulerCromerCallMethod (s : EulerCromerState) :
    Option (List Vec3) × EulerCromerState :=
  (Option.none, s)

/-- `np.amax` over a one-dimensional array: raises on an empty array,
otherwise returns the maximum. -/
def npAmax : List ℚ → Except String ℚ
  | [] => Except.error "zero-size array to reduction operation amax"
  | x :: xs => Except.ok (xs.foldl max x)

/-- `decomposeDomain(coords, connectivity, M, partitionType)` from
`Peridynamics/parallelFunctions.py` lines 5-23.  `part = []` is assigned
first; only when `partitionType == 1` are the partition labels
`floor(coords[i,0] / dX)` with `dX = amax(coords[:,0]) / M + 1e-6` and the
nearest-neighbour list `[[1]] + [[i-1, i+1] for i in range(1, M-1)] +
[[M-2]]` built; otherwise the `return part, nearestNeighbour` raises
because `nearestNeighbour` was never assigned (modelled as an error
result).  `connectivity` is accepted and unused, as in the source. -/
def decomposeDomain (coords : List Vec3) (connectivity : List (List ℕ))
    (M : ℕ) (partitionType : ℤ) : Except String (List ℤ × List (List ℤ)) :=
  let _ := connectivity
  if partitionType = 1 then
    match npAmax (coords.map (fun c => c.1)) with
    | Except.error e => Except.error e
    | Except.ok maxX =>
        let dX := maxX / (M : ℚ) + 1/1000000
        let part := coords.map (fun c => ⌊c.1 / dX⌋)
        let nearestNeighbour :=
          [[(1 : ℤ)]] ++
            (List.range' 1 (M - 2)).map
              (fun i => [(i : ℤ) - 1, (i : ℤ) + 1]) ++
            [[(M : ℤ) - 2]]
        Except.ok (part, nearestNeighbour)
  else
    Except.error "local variable nearestNeighbour referenced before assignment"

/-- Whether a `decomposeDomain` call returned normally (`Except.ok`)
rather than raising. -/
def decomposeOk : Except String (List ℤ × List (List ℤ)) → Bool
  | Except.ok _ => true
  | Except.error _ => false

theorem eulerCall_getD (dt dampening : ℚ) :
    ∀ (u f : List Vec3) (i : ℕ), i < u.length → i < f.length →
      (eulerCall dt dampening u f).getD i v3zero
        = v3add (u.getD i v3zero)
            (v3smulR (v3smulL dt (f.getD i v3zero)) dampening)
  | [], _, i, hu, _ => absurd hu (Nat.not_lt_zero i)
  | _ :: _, [], i, _, hf => absurd hf (Nat.not_lt_zero i)
  | _ :: _, _ :: _, 0, _, _ => rfl
  | _ :: us, _ :: fs, i + 1, hu, hf =>
      eulerCall_getD dt dampening us fs i
        (Nat.lt_of_succ_lt_succ hu) (Nat.lt_of_succ_lt_succ hf)

theorem eulerCall_zero_force (dt dampening : ℚ) :
    ∀ u : List Vec3, eulerCall dt dampening u (List.replicate u.length v3zero) = u
  | [] => rfl
  | a :: us => by
      show v3add a (v3smulR (v3smulL dt v3zero) dampening) ::
          eulerCall dt dampening us (List.replicate us.length v3zero) = a :: us
      rw [eulerCall_zero_force dt dampening us]
      congr 1
      simp [v3add, v3smulL, v3smulR, v3zero]

/-- Claim C4: `Euler.__call__(u, f)` returns the array whose entry for each
node is `u + dt * f * dampening` componentwise (`dt`, `dampening` the
constructor arguments), and with `f` identically zero it returns `u`
unchanged. -/
theorem c4_euler_call (dt dampening : ℚ) (u f : List Vec3)
    (hlen : u.length = f.length) :
    (eulerCall dt dampening u f).length = u.length ∧
    (∀ i, i < u.length →
      ((eulerCall dt dampening u f).getD i v3zero).1
          = (u.getD i v3zero).1 + dt * (f.getD i v3zero).1 * dampening ∧
      ((eulerCall dt dampening u f).getD i v3zero).2.1
          = (u.getD i v3zero).2.1 + dt * (f.getD i v3zero).2.1 * dampening ∧
      ((eulerCall dt dampening u f).getD i v3zero).2.2
          = (u.getD i v3zero).2.2 + dt * (f.getD i v3zero).2.2 * dampening) ∧
    eulerCall dt dampening u (List.replicate u.length v3zero) = u := by
  refine ⟨?_, ?_, eulerCall_zero_force dt dampening u⟩
  · simp [eulerCall, hlen]
  · intro i hi
    rw [eulerCall_getD dt dampening u f i hi (hlen ▸ hi)]
    simp [v3add, v3smulL, v3smulR]

/-- Witness for C4 at a concrete input. -/
theorem c4_euler_call_witness :
    (([((1:ℚ),2,3), (4,5,6)] : List Vec3).length
        = ([((7:ℚ),8,9), (10,11,12)] : List Vec3).length) ∧
    (eulerCall 2 3 [((1:ℚ),2,3), (4,5,6)] [(7,8,9), (10,11,12)]).length = 2 ∧
    ((eulerCall 2 3 [((1:ℚ),2,3), (4,5,6)] [(7,8,9), (10,11,12)]).getD 0 v3zero).1
        = 1 + 2 * 7 * 3 ∧
    eulerCall 2 3 [((1:ℚ),2,3), (4,5,6)]
        (List.replicate ([((1:ℚ),2,3), (4,5,6)] : List Vec3).length v3zero)
      = [((1:ℚ),2,3), (4,5,6)] := by
  have h := c4_euler_call 2 3 [((1:ℚ),2,3), (4,5,6)] [(7,8,9), (10,11,12)] rfl
  exact ⟨rfl, h.1, (h.2.1 0 (by decide)).1, h.2.2⟩

theorem applyRegressionBCsAux_getD (lhs rhs : ℕ → Bool) (t : ℕ) (loadRate : ℚ) :
    ∀ (u : List Vec3) (n i : ℕ), i < u.length →
      (applyRegressionBCsAux lhs rhs t loadRate n u).getD i v3zero
        = bcRow (lhs (n + i)) (rhs (n + i)) t loadRate (u.getD i v3zero)
  | [], _, i, hi => absurd hi (Nat.not_lt_zero i)
  | _ :: _, n, 0, _ => by simp [applyRegressionBCsAux]
  | _ :: us, n, i + 1, hi => by
      have ih := applyRegressionBCsAux_getD lhs rhs t loadRate us (n + 1) i
        (Nat.lt_of_succ_lt_succ hi)
      simpa [applyRegressionBCsAux, Nat.add_assoc, Nat.add_comm 1 i] using ih

/-- Claim C6: in each iteration of the regression loop, the displacement
boundary conditions are applied after the Euler update and override it:
whatever the force array `f`, after the step the x component of a
right-boundary node equals `0.5 * t * load_rate`, the x component of a
left-boundary node (not also on the right) equals `-0.5 * t * load_rate`,
and the lateral components of every boundary node are zero. -/
theorem c6_bc_override (lhs rhs : ℕ → Bool) (dt loadRate : ℚ) (t : ℕ)
    (u f : List Vec3) (hlen : u.length = f.length) (i : ℕ)
    (hi : i < u.length) :
    (rhs i = true →
      ((regressionStep lhs rhs dt loadRate t u f).getD i v3zero).1
        = (1/2 : ℚ) * t * loadRate) ∧
    (lhs i = true → rhs i = false →
      ((regressionStep lhs rhs dt loadRate t u f).getD i v3zero).1
        = -(1/2 : ℚ) * t * loadRate) ∧
    ((lhs i = true ∨ rhs i = true) →
      ((regressionStep lhs rhs dt loadRate t u f).getD i v3zero).2.1 = 0 ∧
      ((regressionStep lhs rhs dt loadRate t u f).getD i v3zero).2.2 = 0) := by
  have hlen2 : i < (eulerCall dt 1 u f).length := by
    simpa [eulerCall, hlen] using hi
  have hget := applyRegressionBCsAux_getD lhs rhs t loadRate
    (eulerCall dt 1 u f) 0 i hlen2
  simp only [Nat.zero_add] at hget
  rw [regressionStep, applyRegressionBCs, hget]
  rcases hL : lhs i <;> rcases hR : rhs i <;>
    simp [bcRow, hL, hR]

/-- Witness for C6 at a concrete input: node 1 is a right-boundary node. -/
theorem c6_bc_override_witness :
    ((regressionStep (fun i => i == 0) (fun i => i == 1) (1/1000) (1/100000)
        3 [((1:ℚ),2,3), (4,5,6)] [(7,8,9), (10,11,12)]).getD 1 v3zero).1
      = (1/2 : ℚ) * 3 * (1/100000) ∧
    ((regressionStep (fun i => i == 0) (fun i => i == 1) (1/1000) (1/100000)
        3 [((1:ℚ),2,3), (4,5,6)] [(7,8,9), (10,11,12)]).getD 1 v3zero).2.1
      = 0 := by
  have h := c6_bc_override (fun i => i == 0) (fun i => i == 1) (1/1000)
    (1/100000) 3 [((1:ℚ),2,3), (4,5,6)] [(7,8,9), (10,11,12)] rfl 1 (by decide)
  exact ⟨h.1 rfl, (h.2.2 (Or.inr rfl)).1⟩

theorem tipLoop_spec :
    ∀ (tips : List ℤ) (un udn : List Vec3) (accD accF : ℚ) (accC : ℕ),
      tips.length ≤ un.length → tips.length ≤ udn.length →
      tipLoop accD accF accC tips un udn
        = (accD + specTipSumThird tips un, accF + specTipSumThird tips udn,
           accC + specTipCount tips)
  | [], un, udn, accD, accF, accC, _, _ => by
      simp [tipLoop, specTipSumThird, specTipCount]
  | _ :: _, [], _, _, _, _, hu, _ => by simp at hu
  | _ :: _, _ :: _, [], _, _, _, _, hf => by simp at hf
  | ty :: tys, u :: us, f :: fs, accD, accF, accC, hu, hf => by
      have hu' : tys.length ≤ us.length := Nat.le_of_succ_le_succ hu
      have hf' : tys.length ≤ fs.length := Nat.le_of_succ_le_succ hf
      by_cases hty : ty = 1
      · have ih := tipLoop_spec tys us fs (accD + u.2.2) (accF + f.2.2)
          (accC + 1) hu' hf'
        have hstep : tipLoop accD accF accC (ty :: tys) (u :: us) (f :: fs)
            = tipLoop (accD + u.2.2) (accF + f.2.2) (accC + 1) tys us fs := by
          simp [tipLoop, hty]
        rw [hstep, ih]
        simp only [specTipSumThird, specTipCount, List.countP_cons, hty,
          Prod.mk.injEq]
        refine ⟨by simp; ring, by simp; ring, by simp [specTipCount]; omega⟩
      · have ih := tipLoop_spec tys us fs accD accF accC hu' hf'
        have hstep : tipLoop accD accF accC (ty :: tys) (u :: us) (f :: fs)
            = tipLoop accD accF accC tys us fs := by
          simp [tipLoop, hty]
        rw [hstep, ih]
        simp only [specTipSumThird, specTipCount, List.countP_cons, hty,
          Prod.mk.injEq]
        refine ⟨by simp, by simp, by simp [specTipCount, hty]⟩

/-- Claim C5 counterexample: with two tip nodes whose force third
components are 1 and 3, `write` returns the tip force diagnostic as the
sum 4, not the arithmetic mean 2 claimed for both diagnostics (the source
never divides `tip_shear_force` by the tip count). -/
theorem c5_counterexample :
    (writeTipDiagnostics [1, 1] [(0,0,2), (0,0,4)] [(0,0,1), (0,0,3)]).2
        = PyScalar.num 4 ∧
    specTipMeanThird [1, 1] [(0,0,1), (0,0,3)] = 2 ∧
    (writeTipDiagnostics [1, 1] [(0,0,2), (0,0,4)] [(0,0,1), (0,0,3)]).2
        ≠ PyScalar.num (specTipMeanThird [1, 1] [(0,0,1), (0,0,3)]) := by
  refine ⟨?_, ?_, ?_⟩ <;>
    · simp [writeTipDiagnostics, tipLoop, specTipMeanThird, specTipSumThird,
        specTipCount]
      norm_num

/-- Claim C5 amended: with at least one tip-flagged node, `write` returns
the tip displacement as the arithmetic mean of the third displacement
component over the tip nodes, but the tip force as the plain sum (not the
mean) of the third force component over the tip nodes. -/
theorem c5_tip_diagnostics (tips : List ℤ) (un udn : List Vec3)
    (h1 : tips.length ≤ un.length) (h2 : tips.length ≤ udn.length)
    (hc : specTipCount tips ≠ 0) :
    (writeTipDiagnostics tips un udn).1
        = PyScalar.num (specTipMeanThird tips un) ∧
    (writeTipDiagnostics tips un udn).2
        = PyScalar.num (specTipSumThird tips udn) := by
  rw [writeTipDiagnostics, tipLoop_spec tips un udn 0 0 0 h1 h2]
  simp [specTipMeanThird, hc]

/-- Witness for the amended C5 at a concrete input. -/
theorem c5_tip_diagnostics_witness :
    ((([1, 0, 1] : List ℤ).length ≤ 3) ∧ (([1, 0, 1] : List ℤ).length ≤ 3) ∧
      specTipCount [1, 0, 1] ≠ 0) ∧
    (writeTipDiagnostics [1, 0, 1] [(0,0,2), (0,0,9), (0,0,4)]
        [(0,0,1), (0,0,9), (0,0,3)]).1
      = PyScalar.num (specTipMeanThird [1, 0, 1]
          [(0,0,2), (0,0,9), (0,0,4)]) ∧
    (writeTipDiagnostics [1, 0, 1] [(0,0,2), (0,0,9), (0,0,4)]
        [(0,0,1), (0,0,9), (0,0,3)]).2
      = PyScalar.num (specTipSumThird [1, 0, 1]
          [(0,0,1), (0,0,9), (0,0,3)]) := by
  have h := c5_tip_diagnostics [1, 0, 1] [(0,0,2), (0,0,9), (0,0,4)]
    [(0,0,1), (0,0,9), (0,0,3)] (by decide) (by decide) (by decide)
  exact ⟨⟨by decide, by decide, by decide⟩, h.1, h.2⟩

theorem tipLoop_of_no_tip :
    ∀ (tips : List ℤ), specTipCount tips = 0 →
      ∀ (un udn : List Vec3) (accD accF : ℚ) (accC : ℕ),
        tipLoop accD accF accC tips un udn = (accD, accF, accC)
  | [], _, un, udn, _, _, _ => by cases un <;> cases udn <;> simp [tipLoop]
  | ty :: tys, hc, un, udn, accD, accF, accC => by
      have hty : ¬ ty = 1 := by
        intro h
        simp [specTipCount, List.countP_cons, h] at hc
      have hc' : specTipCount tys = 0 := by
        simpa [specTipCount, List.countP_cons, hty] using hc
      cases un with
      | nil => simp [tipLoop]
      | cons u us =>
          cases udn with
          | nil => simp [tipLoop]
          | cons f fs =>
              simpa [tipLoop, hty] using
                tipLoop_of_no_tip tys hc' us fs accD accF accC

/-- Claim C7 counterexample: with zero tip-flagged nodes, `write` returns
the tip displacement as the `None` sentinel, but the tip force as the
number 0 (the untouched accumulator) rather than an absence value, so not
both diagnostics are returned as an explicit absence value. -/
theorem c7_counterexample :
    (writeTipDiagnostics [0] [(0,0,5)] [(0,0,7)]).1 = PyScalar.noneVal ∧
    (writeTipDiagnostics [0] [(0,0,5)] [(0,0,7)]).2 = PyScalar.num 0 ∧
    (writeTipDiagnostics [0] [(0,0,5)] [(0,0,7)]).2 ≠ PyScalar.noneVal := by
  refine ⟨?_, ?_, ?_⟩ <;> simp [writeTipDiagnostics, tipLoop]

/-- Claim C7 amended: with zero tip-flagged nodes, `write` performs no
division (the guard `tmp != 0` fails), returns the tip displacement as the
`None` sentinel and the tip force as the number 0. -/
theorem c7_zero_tip (tips : List ℤ) (un udn : List Vec3)
    (hc : specTipCount tips = 0) :
    writeTipDiagnostics tips un udn = (PyScalar.noneVal, PyScalar.num 0) := by
  rw [writeTipDiagnostics, tipLoop_of_no_tip tips hc un udn 0 0 0]
  simp

/-- Witness for the amended C7 at a concrete input. -/
theorem c7_zero_tip_witness :
    specTipCount [0, 2] = 0 ∧
    writeTipDiagnostics [0, 2] [(1,1,1), (2,2,2)] [(3,3,3), (4,4,4)]
      = (PyScalar.noneVal, PyScalar.num 0) := by
  have h := c7_zero_tip [0, 2] [(1,1,1), (2,2,2)] [(3,3,3), (4,4,4)]
    (by decide)
  exact ⟨by decide, h⟩

/-- Claim C2: the step-size policy of the adaptive integrators
(Dormand-Prince and Heun-Euler, plain and optimised, which share
`adapt_time_step` and the `runtime` accept/reject skeleton verbatim).  If
the mean error norm exceeds `error_size_max`, the step is rejected: the
committed displacement and the bond flags are left unchanged (the caller
re-invokes the step with unchanged state) and `dt` is divided by 1.1.  If
the mean error is below `error_size_min`, the step is committed and `dt`
is multiplied by 1.1.  Otherwise the step is committed at the current
`dt`. -/
theorem c2_adaptive_policy (errorSizeMax errorSizeMin error : ℚ)
    (commitU : List Vec3 → ℚ → List Vec3) (brk : ℕ → ℕ → Bool)
    (s : AdaptiveState) :
    (error > errorSizeMax →
      adaptiveRuntime errorSizeMax errorSizeMin error commitU brk s
        = { s with dt := s.dt / (11/10) }) ∧
    (¬ error > errorSizeMax → error < errorSizeMin →
      adaptiveRuntime errorSizeMax errorSizeMin error commitU brk s
        = { un := commitU s.un (s.dt * (11/10)),
            bonds := checkBondsKernel brk s.bonds,
            dt := s.dt * (11/10) }) ∧
    (¬ error > errorSizeMax → ¬ error < errorSizeMin →
      adaptiveRuntime errorSizeMax errorSizeMin error commitU brk s
        = { un := commitU s.un s.dt,
            bonds := checkBondsKernel brk s.bonds,
            dt := s.dt }) := by
  refine ⟨fun hgt => ?_, fun hngt hlt => ?_, fun hngt hnlt => ?_⟩ <;>
    simp [adaptiveRuntime, adaptTimeStep, *]

/-- Witness for C2 at a concrete input: the mean error 2 exceeds
`error_size_max = 1`, so the step is rejected and `dt` shrinks. -/
theorem c2_adaptive_policy_witness :
    ((2 : ℚ) > 1) ∧
    adaptiveRuntime 1 (1/10) 2 (fun u _ => u) (fun _ _ => false)
        ⟨[], [], 1⟩
      = ⟨[], [], 1 / (11/10)⟩ := by
  have h := c2_adaptive_policy 1 (1/10) 2 (fun u _ => u) (fun _ _ => false)
    ⟨[], [], 1⟩
  exact ⟨by norm_num, h.1 (by norm_num)⟩

/-- Claim C3: on a rejected adaptive step (mean error above
`error_size_max`) the committed displacement is left unchanged and no bond
transitions from active to broken: neither the displacement-update kernel
nor the bond-failure check is dispatched, whatever the commit and
critical-stretch behaviours `commitU` and `brk` would have been. -/
theorem c3_rejected_step_frame (errorSizeMax errorSizeMin error : ℚ)
    (commitU : List Vec3 → ℚ → List Vec3) (brk : ℕ → ℕ → Bool)
    (s : AdaptiveState) (hreject : error > errorSizeMax) :
    (adaptiveRuntime errorSizeMax errorSizeMin error commitU brk s).un
        = s.un ∧
    (adaptiveRuntime errorSizeMax errorSizeMin error commitU brk s).bonds
        = s.bonds := by
  simp [adaptiveRuntime, adaptTimeStep, hreject]

/-- Witness for C3 at a concrete input: a rejected step leaves the
displacement array and the bond flags of a one-node, one-bond state
untouched even though the commit and break behaviours would change them. -/
theorem c3_rejected_step_frame_witness :
    ((5 : ℚ) > 1) ∧
    (adaptiveRuntime 1 (1/10) 5 (fun _ _ => [v3zero]) (fun _ _ => true)
        ⟨[(1,2,3)], [[true]], 1⟩).un = [((1:ℚ),2,3)] ∧
    (adaptiveRuntime 1 (1/10) 5 (fun _ _ => [v3zero]) (fun _ _ => true)
        ⟨[(1,2,3)], [[true]], 1⟩).bonds = [[true]] := by
  have h := c3_rejected_step_frame 1 (1/10) 5 (fun _ _ => [v3zero])
    (fun _ _ => true) ⟨[(1,2,3)], [[true]], 1⟩ (by norm_num)
  exact ⟨by norm_num, h.1, h.2⟩

theorem checkBondsRowAux_getD (brkJ : ℕ → Bool) :
    ∀ (row : List Bool) (j0 j : ℕ),
      (checkBondsRowAux brkJ j0 row).getD j false
        = (row.getD j false && !(brkJ (j0 + j)))
  | [], _, j => by simp [checkBondsRowAux]
  | _ :: _, _, 0 => by simp [checkBondsRowAux]
  | _ :: rest, j0, j + 1 => by
      have ih := checkBondsRowAux_getD brkJ rest (j0 + 1) j
      simpa [checkBondsRowAux, Nat.add_assoc, Nat.add_comm 1 j] using ih

theorem checkBondsAux_getD (brk : ℕ → ℕ → Bool) :
    ∀ (bonds : List (List Bool)) (i0 i : ℕ),
      (checkBondsAux brk i0 bonds).getD i []
        = checkBondsRowAux (brk (i0 + i)) 0 (bonds.getD i [])
  | [], _, i => by simp [checkBondsAux, checkBondsRowAux]
  | _ :: _, _, 0 => by simp [checkBondsAux]
  | _ :: rest, i0, i + 1 => by
      have ih := checkBondsAux_getD brk rest (i0 + 1) i
      simpa [checkBondsAux, Nat.add_assoc, Nat.add_comm 1 i] using ih

theorem bondActive_checkBondsKernel (brk : ℕ → ℕ → Bool)
    (bonds : List (List Bool)) (i j : ℕ) :
    bondActive (checkBondsKernel brk bonds) i j
      = (bondActive bonds i j && !(brk i j)) := by
  rw [bondActive, checkBondsKernel, checkBondsAux_getD brk bonds 0 i,
    checkBondsRowAux_getD (brk (0 + i)) (bonds.getD i []) 0 j]
  simp [bondActive]

theorem bondActive_applyCoreOp (op : CoreOp) (s : StochasticState)
    (i j : ℕ) (hbroken : bondActive s.d_horizons i j = false) :
    bondActive (applyCoreOp op s).d_horizons i j = false := by
  cases op with
  | step updU updV brk =>
      simp [applyCoreOp, bondActive_checkBondsKernel, hbroken]
  | writeOp lens => simpa [applyCoreOp] using hbroken
  | load numForceBC scale =>
      by_cases hn : numForceBC ≠ 0 <;> simpa [applyCoreOp, hn] using hbroken

/-- Claim C1 amended: across any sequence of `runtime` steps, `write`
calls and `incrementLoad` calls, a broken bond stays broken — none of
these operations resets a broken bond flag to active.  (`EulerStochastic.reset`
is excluded: it restores the initial adjacency, see the counterexample.) -/
theorem c1_bond_monotone (ops : List CoreOp) (s : StochasticState)
    (i j : ℕ) (hbroken : bondActive s.d_horizons i j = false) :
    bondActive (runCoreOps ops s).d_horizons i j = false := by
  induction ops generalizing s with
  | nil => exact hbroken
  | cons op rest ih =>
      exact ih (applyCoreOp op s) (bondActive_applyCoreOp op s i j hbroken)

/-- Claim C1 counterexample: start from a one-node, one-bond state whose
bond is active, run one step whose critical-stretch test breaks the bond,
then call `EulerStochastic.reset`: the bond is broken after the step and
active again after the reset, because `reset` re-creates `d_horizons` from
the initial host copy `h_horizons` (`peridynamics/integrators.py` lines
2416-2418).  So the core operation `reset` does reset a broken bond flag
to active, contradicting the claim as stated. -/
theorem c1_counterexample :
    bondActive (applyCoreOp (CoreOp.step id id (fun _ _ => true))
        ⟨[[true]], [[true]], [v3zero], [v3zero], [0], [], 0⟩).d_horizons 0 0
      = false ∧
    bondActive (stochasticReset
        (applyCoreOp (CoreOp.step id id (fun _ _ => true))
          ⟨[[true]], [[true]], [v3zero], [v3zero], [0], [], 0⟩)
        1 []).d_horizons 0 0
      = true := by
  constructor <;> rfl

/-- Witness for the amended C1 at a concrete input: the bond broken in the
initial state stays broken across a write, a load increment and a step. -/
theorem c1_bond_monotone_witness :
    bondActive [[false]] 0 0 = false ∧
    bondActive (runCoreOps
        [CoreOp.writeOp [1], CoreOp.load 2 5,
         CoreOp.step id id (fun _ _ => false)]
        ⟨[[true]], [[false]], [v3zero], [v3zero], [1], [], 0⟩).d_horizons 0 0
      = false := by
  have h := c1_bond_monotone
    [CoreOp.writeOp [1], CoreOp.load 2 5,
     CoreOp.step id id (fun _ _ => false)]
    ⟨[[true]], [[false]], [v3zero], [v3zero], [1], [], 0⟩ 0 0 rfl
  exact ⟨rfl, h⟩

/-- Claim C8: `incrementLoad(model, load_scale)` changes only the scalar
`h_force_load_scale` (the multiplier the force-reduction kernels consume),
leaves every other field of the integrator state unchanged, triggers no
recomputation, and does nothing at all when the model has no
force-boundary nodes. -/
theorem c8_incrementLoad_frame (numForceBCNodes : ℕ) (loadScale : ℚ)
    (s : EulerOpenCLState) :
    ((incrementLoad numForceBCNodes loadScale s).un = s.un ∧
     (incrementLoad numForceBCNodes loadScale s).udn1 = s.udn1 ∧
     (incrementLoad numForceBCNodes loadScale s).horizons = s.horizons ∧
     (incrementLoad numForceBCNodes loadScale s).damage = s.damage) ∧
    (numForceBCNodes = 0 → incrementLoad numForceBCNodes loadScale s = s) ∧
    (numForceBCNodes ≠ 0 →
      (incrementLoad numForceBCNodes loadScale s).force_load_scale
        = loadScale) := by
  by_cases hn : numForceBCNodes = 0 <;> simp [incrementLoad, hn]

/-- Witness for C8 at a concrete input, in both the zero and the nonzero
force-boundary-node cases. -/
theorem c8_incrementLoad_frame_witness :
    incrementLoad 0 5 ⟨[(1,2,3)], [v3zero], [[true]], [0], 3⟩
      = ⟨[((1:ℚ),2,3)], [v3zero], [[true]], [0], 3⟩ ∧
    ((2 : ℕ) ≠ 0) ∧
    (incrementLoad 2 5 ⟨[(1,2,3)], [v3zero], [[true]], [0], 3⟩).horizons
      = [[true]] ∧
    (incrementLoad 2 5
        ⟨[(1,2,3)], [v3zero], [[true]], [0], 3⟩).force_load_scale = 5 := by
  have h0 := c8_incrementLoad_frame 0 5 ⟨[(1,2,3)], [v3zero], [[true]], [0], 3⟩
  have h2 := c8_incrementLoad_frame 2 5 ⟨[(1,2,3)], [v3zero], [[true]], [0], 3⟩
  exact ⟨h0.2.1 rfl, by decide, h2.1.2.2.1, h2.2.2 (by decide)⟩

/-- Claim C9 is violated by the code: `EulerCromer.__call__` (like the
call method of every other OpenCL integrator) has a body consisting only
of its docstring, so invoking it performs no integration step, changes no
state and returns Python `None` instead of the updated displacements that
its own docstring and the `Integrator` base-class contract promise; the
actual stepping lives in `runtime`.  Evaluated here at a concrete state. -/
theorem c9_call_method_is_stub :
    eulerCromerCallMethod ⟨[(1,2,3)], [v3zero], [v3zero], [[true]], 0⟩
      = (Option.none, ⟨[(1,2,3)], [v3zero], [v3zero], [[true]], 0⟩) ∧
    (eulerCromerCallMethod
        ⟨[(1,2,3)], [v3zero], [v3zero], [[true]], 0⟩).1
      ≠ some [((1:ℚ),2,3)] := by
  exact ⟨rfl, by simp [eulerCromerCallMethod]⟩

/-- Claim C10: for a nonempty coordinate array, `decomposeDomain` returns
a (partition, nearest-neighbour) pair exactly when `partitionType` equals
1; for every other `partitionType` it raises (the local variable
`nearestNeighbour` is only assigned inside the `partitionType == 1`
branch), so only partition type 1 is supported. -/
theorem c10_decomposeDomain_iff (coords : List Vec3)
    (connectivity : List (List ℕ)) (M : ℕ) (partitionType : ℤ)
    (hne : coords ≠ []) :
    decomposeOk (decomposeDomain coords connectivity M partitionType) = true
      ↔ partitionType = 1 := by
  by_cases hp : partitionType = 1
  · cases coords with
    | nil => exact absurd rfl hne
    | cons c cs => simp [decomposeDomain, decomposeOk, hp, npAmax]
  · simp [decomposeDomain, decomposeOk, hp]

/-- Witness for C10 at concrete inputs: partition type 1 returns a pair,
partition type 2 raises. -/
theorem c10_decomposeDomain_iff_witness :
    (([((1:ℚ),0,0), (2,0,0)] : List Vec3) ≠ []) ∧
    decomposeOk (decomposeDomain [((1:ℚ),0,0), (2,0,0)] [] 3 1) = true ∧
    decomposeOk (decomposeDomain [((1:ℚ),0,0), (2,0,0)] [] 3 2) = false := by
  have h1 := c10_decomposeDomain_iff [((1:ℚ),0,0), (2,0,0)] [] 3 1 (by simp)
  have h2 := c10_decomposeDomain_iff [((1:ℚ),0,0), (2,0,0)] [] 3 2 (by simp)
  refine ⟨by simp, h1.mpr rfl, ?_⟩
  cases hd : decomposeOk (decomposeDomain [((1:ℚ),0,0), (2,0,0)] [] 3 2)
  · rfl
  · exact absurd (h2.mp hd) (by decide)
